import Mathlib

/-!
Shallow embedding of the `adbook` incremental build pipeline.

The embedding covers:
* a path model (`SPath`) mirroring the `std::path::Path` operations the code
  uses (`join`, `strip_prefix`, `extension`, `with_extension`);
* the document tree loader (`Index.from_index_ron_recursive` in
  `src/book/index.rs`), over an abstract filesystem;
* the modification-time cache (`CacheData`, `CacheDiff::need_build`,
  `CacheIndex::load`, `CacheIndex::clean_up_and_save` in `src/build/cache.rs`);
* the concurrent walker (`walk_book_async`, `list_src_files` in
  `src/book/walk.rs`), embedded deterministically: `join_all` returns one
  outcome per spawned task in spawn order, and each task body performs its
  single progress-counter increment, which commutes with the others;
* the per-file builder (`AdocBookBuilder::visit_file` in `src/build/visit.rs`);
* the build driver (`build_book` in `src/build.rs`) over an abstract world
  whose distinct persistent locations (cache index file, cache artifact
  mirrors, site directory) are separate fields.

Rust `Result<T, E>` becomes `Except E T`; a `panic!`/`unwrap` branch becomes
an `Option` layer with `none` for the panic; `Path::canonicalize` is the
identity on the abstract filesystem (paths in the model carry no symlinks or
dot segments, so they are already canonical).
-/

namespace Adbook

/-- Model of a filesystem path: an absolute flag plus a list of components.
Mirrors `std::path::PathBuf` as used by the code. -/
structure SPath where
  absolute : Bool
  comps : List String
  deriving DecidableEq

/-- `Path::join`: an absolute right-hand side replaces the left-hand side. -/
def SPath.join (p q : SPath) : SPath :=
  if q.absolute then q else ⟨p.absolute, p.comps ++ q.comps⟩

/-- `Path::strip_prefix`: succeeds iff the prefix path's components are a
component prefix (with matching absoluteness), returning the relative rest. -/
def SPath.stripPre (p pre : SPath) : Option SPath :=
  if p.absolute = pre.absolute && pre.comps.isPrefixOf p.comps then
    some ⟨false, p.comps.drop pre.comps.length⟩
  else none

/-- Index of the last `.` occurring at a position other than 0 in a file
name, following `Path::extension` semantics (a lone leading dot marks a
hidden file, not an extension). -/
def lastDotIdxAux : List Char → Nat → Option Nat → Option Nat
  | [], _, acc => acc
  | c :: rest, i, acc =>
      lastDotIdxAux rest (i + 1) (if c = '.' && i ≠ 0 then some i else acc)

/-- `Path::extension` on a single file-name component. -/
def compExt (s : String) : Option String :=
  match lastDotIdxAux s.data 0 none with
  | none => none
  | some i => some (String.mk (s.data.drop (i + 1)))

/-- `Path::with_extension` on a single file-name component. -/
def compWithExt (s e : String) : String :=
  match lastDotIdxAux s.data 0 none with
  | none => String.mk (s.data ++ ('.' :: e.data))
  | some i => String.mk (s.data.take i ++ ('.' :: e.data))

/-- `Path::extension` of the last component. -/
def SPath.extension (p : SPath) : Option String :=
  match p.comps.getLast? with
  | none => none
  | some name => compExt name

/-- `Path::with_extension`. -/
def SPath.withExtension (p : SPath) (e : String) : SPath :=
  match p.comps.getLast? with
  | none => p
  | some name => ⟨p.absolute, p.comps.dropLast ++ [compWithExt name e]⟩

/-- `Path::display`, for error messages. -/
def SPath.display (p : SPath) : String :=
  (if p.absolute then "/" else "") ++ String.intercalate "/" p.comps

/-! ## Document tree: `src/book/index.rs`

The repository's snapshot of `src/book/config.rs` predates `IndexRon`; the
`IndexRon`/`IndexRonItem` declarations themselves are not under `src/`, so
their shape is modelled from their full usage in `src/book/index.rs` plus the
spec's description of entries as `File(name, relative path)` or
`Directory(relative path)` and of the mandatory `(name, path)` summary pair.
-/

/-- Item of an `index.ron` description file: modelled from the spec and from
its usage in `Index::from_index_ron_recursive` (the declaring module is not
part of the source snapshot). -/
inductive IndexRonItem : Type where
  | File (name : String) (rel : SPath)
  | Dir (rel : SPath)
  deriving DecidableEq

/-- Contents of an `index.ron` description file: a mandatory summary
`(name, relative path)` pair plus the declared child entries. Modelled from
the spec and from usage in `Index::from_index_ron_recursive`. -/
structure IndexRon where
  summary : String × SPath
  items : List IndexRonItem
  deriving DecidableEq

mutual
/-- `Index` from `src/book/index.rs`: directory path, display name, summary
document path and ordered child items. -/
inductive Index : Type where
  | mk (dir : SPath) (name : String) (summary : SPath) (items : List IndexItem)

/-- `IndexItem` from `src/book/index.rs`. -/
inductive IndexItem : Type where
  | File (name : String) (path : SPath)
  | Dir (sub : Index)
end

def Index.dir : Index → SPath
  | .mk d _ _ _ => d

def Index.name : Index → String
  | .mk _ n _ _ => n

def Index.summary : Index → SPath
  | .mk _ _ s _ => s

def Index.items : Index → List IndexItem
  | .mk _ _ _ is => is

/-- `IndexLoadError` from `src/book/index.rs`; the `io::Error` and
`ron::Error` payloads are abstracted as message strings, and the
`SubIndexLoadErrors` wrapper is inlined as the carried error list. -/
inductive IndexLoadError : Type where
  | FailedToLocateItem (rel : SPath) (dir : SPath)
  | FailedToLocateSummary (rel : SPath) (dir : SPath)
  | FoundOddItem (p : SPath)
  | FoundDirectoryWithoutIndexRon (p : SPath)
  | FailedToReadIndexRon (p : SPath) (ioErr : String)
  | FailedToParseIndexRon (p : SPath) (ronErr : String)
  | FoundErrorsInSubIndex (errs : List IndexLoadError)

/-- Kind of a filesystem node. -/
inductive FsKind : Type where
  | file
  | dir
  deriving DecidableEq

/-- Result of reading and parsing an `index.ron` file:
`fs::read_to_string` failure, `crate::utils::load_ron` failure, or success. -/
inductive RonReadResult : Type where
  | ioError (msg : String)
  | parseError (msg : String)
  | ok (ron : IndexRon)

/-- Abstract filesystem for the tree loader: which paths exist (and their
kind), and what reading the `index.ron` file at a given path yields. -/
structure IndexFs where
  nodes : List (SPath × FsKind)
  ronFiles : List (SPath × RonReadResult)

def IndexFs.kindOf (fs : IndexFs) (p : SPath) : Option FsKind :=
  (fs.nodes.find? (fun e => e.1 == p)).map (fun e => e.2)

/-- `Path::exists`. -/
def IndexFs.pathExists (fs : IndexFs) (p : SPath) : Bool :=
  (fs.kindOf p).isSome

/-- `Path::is_file`. -/
def IndexFs.isFile (fs : IndexFs) (p : SPath) : Bool :=
  fs.kindOf p == some .file

/-- Reading plus parsing the `index.ron` file at `p`. -/
def IndexFs.ronAt (fs : IndexFs) (p : SPath) : RonReadResult :=
  match fs.ronFiles.find? (fun e => e.1 == p) with
  | some e => e.2
  | none => .ioError "file not found"

/-- The `INDEX_RON` constant. -/
def indexRonName : SPath := ⟨false, ["index.ron"]⟩

/-- One iteration of the `for item in &ix_ron.items` loop of
`Index::from_index_ron_recursive`: the items and errors this entry
contributes. `recur` stands for the recursive call (one fuel level down);
`none` propagates fuel exhaustion (the source recursion is unbounded on
cyclic description graphs). -/
def processItem (fs : IndexFs)
    (recur : IndexRon → SPath → Option (Except IndexLoadError (Index × List IndexLoadError)))
    (dir : SPath) :
    IndexRonItem → Option (List IndexItem × List IndexLoadError)
  | .File name rel =>
      let path := dir.join rel
      if ¬ fs.pathExists path then
        some ([], [.FailedToLocateItem rel dir])
      else
        some ([.File name path], [])
  | .Dir rel =>
      let path := dir.join rel
      if ¬ fs.pathExists path then
        some ([], [.FailedToLocateItem rel dir])
      else
        let ronFile := path.join indexRonName
        if ¬ fs.isFile ronFile then
          some ([], [.FoundDirectoryWithoutIndexRon path])
        else
          match fs.ronAt ronFile with
          | .ioError e => some ([], [.FailedToReadIndexRon path e])
          | .parseError e => some ([], [.FailedToParseIndexRon path e])
          | .ok subRon =>
              match recur subRon path with
              | none => none
              | some (.error err) => some ([], [err])
              | some (.ok (ix, ixErrs)) =>
                  some ([.Dir ix],
                    if ixErrs.isEmpty then []
                    else [.FoundErrorsInSubIndex ixErrs])

/-- The whole `for` loop of `Index::from_index_ron_recursive`: contributions
of the entries, concatenated in declaration order. -/
def processItems (fs : IndexFs)
    (recur : IndexRon → SPath → Option (Except IndexLoadError (Index × List IndexLoadError)))
    (dir : SPath) :
    List IndexRonItem → Option (List IndexItem × List IndexLoadError)
  | [] => some ([], [])
  | it :: rest => do
      let (i1, e1) ← processItem fs recur dir it
      let (i2, e2) ← processItems fs recur dir rest
      some (i1 ++ i2, e1 ++ e2)

/-- `Index::from_index_ron_recursive`, with a fuel parameter standing for
recursion depth: `none` means the fuel ran out (the source function recurses
unboundedly on cyclic description graphs). The mandatory summary check is the
only `return Err` of the source body. -/
def from_index_ron_recursive (fs : IndexFs) :
    Nat → IndexRon → SPath → Option (Except IndexLoadError (Index × List IndexLoadError))
  | 0, _, _ => none
  | n + 1, ron, dir =>
      let prefaceFile := dir.join ron.summary.2
      if ¬ fs.isFile prefaceFile then
        some (.error (.FailedToLocateSummary ron.summary.2 dir))
      else
        match processItems fs (from_index_ron_recursive fs n) dir ron.items with
        | none => none
        | some (items, errs) =>
            some (.ok (.mk dir ron.summary.1 prefaceFile items, errs))

/-! ## Book structure: `src/book.rs`

The `BookRon` declaration with the fields used by the build pipeline
(`src_dir`, `site_dir`, `converts`, `includes`, `copies`,
`use_default_theme`) is likewise absent from the source snapshot (the
snapshot of `config.rs` is older); the fields are modelled from their usage
in `src/book.rs`, `src/book/walk.rs` and `src/build.rs` and from the spec's
global-configuration description. -/

structure BookRon where
  src_dir : SPath
  site_dir : SPath
  converts : List SPath
  includes : List SPath
  copies : List (SPath × SPath)
  use_default_theme : Bool

/-- `BookStructure` from `src/book.rs`. -/
structure BookStructure where
  root : SPath
  book_ron : BookRon
  index : Index

def BookStructure.src_dir_path (b : BookStructure) : SPath :=
  b.root.join b.book_ron.src_dir

def BookStructure.site_dir_path (b : BookStructure) : SPath :=
  b.root.join b.book_ron.site_dir

/-! ## Cache store: `src/build/cache.rs` -/

/-- `CacheEntry`: modification time (abstracted to `Nat`) plus the path
relative to the source directory. -/
structure CacheEntry where
  last_modified : Nat
  path : SPath
  deriving DecidableEq

/-- `CacheData`: the snapshot entry list. -/
structure CacheData where
  entries : List CacheEntry
  deriving DecidableEq

def CacheData.empty : CacheData := ⟨[]⟩

/-- `CacheData::find_cache`: first entry with the given relative path. -/
def CacheData.find_cache (d : CacheData) (rel : SPath) : Option CacheEntry :=
  d.entries.find? (fun e => e.path == rel)

/-- `CacheDiff`: optional previous snapshot plus current snapshot. -/
structure CacheDiff where
  old : Option CacheData
  new : CacheData

/-- `CacheDiff::into_new_cache_data`. -/
def CacheDiff.into_new_cache_data (d : CacheDiff) : CacheData := d.new

/-- `CacheDiff::need_build`. The `Option` layer records the two panics of
the source: `strip_prefix(..).unwrap()` on an absolute path outside the
source directory, and the `unwrap_or_else(|| panic!(..))` on a path with no
entry in the current snapshot. -/
def CacheDiff.need_build (diff : CacheDiff) (book : BookStructure) (src_path : SPath) :
    Option Bool := do
  let rel_path ←
    if src_path.absolute then src_path.stripPre book.src_dir_path
    else some src_path
  let current_entry ← diff.new.find_cache rel_path
  match diff.old with
  | none => some true
  | some last =>
      match last.find_cache rel_path with
      | none => some true
      | some last_entry =>
          some (decide (last_entry.last_modified ≠ current_entry.last_modified))

/-- The path resolution step at the head of `CacheDiff::need_build`. -/
def resolveRel (book : BookStructure) (src_path : SPath) : Option SPath :=
  if src_path.absolute then src_path.stripPre book.src_dir_path
  else some src_path

/-! ## Concurrent walker: `src/book/walk.rs`

The fan-out/join-all scheduler is embedded deterministically:
`futures::future::join_all` returns exactly one result per spawned task, in
spawn order, and never cancels a task because a sibling failed. Each task's
body is `convert_file` followed by a single `pb.inc(1)`; since the increments
are performed under the progress-bar mutex and commute, the final counter
value equals the sum of the per-task increments regardless of the
interleaving, which the embedding computes directly. -/

/-- `BuildOutput` from `src/book/walk.rs`. -/
structure BuildOutput where
  string : String
  src_file : SPath
  deriving DecidableEq

/-- `BuildError` from `src/book/walk.rs`: the `anyhow::Error` is abstracted
as a message string. -/
structure BuildError where
  err : String
  src_file : SPath
  deriving DecidableEq

/-- `BuildResult` from `src/book/walk.rs`. -/
abbrev BuildResult := Except BuildError BuildOutput

/-- The `BookBuilder` trait capability. Each spawned task clones the builder
before running, so a task's conversion is this pure function applied to its
own copy of the state. -/
structure BookBuilder where
  can_skip_build : SPath → Bool
  convert_file : SPath → BuildResult

mutual
/-- `list_files_rec` from `src/book/walk.rs`: depth-first flattening, the
summary document first, then the items in declaration order. -/
def list_files_rec : Index → List SPath
  | .mk _ _ summary items => summary :: list_files_items items

/-- The `for item in &index.items` loop of `list_files_rec`. -/
def list_files_items : List IndexItem → List SPath
  | [] => []
  | .File _ path :: rest => path :: list_files_items rest
  | .Dir sub :: rest => list_files_rec sub ++ list_files_items rest
end

/-- `list_src_files` from `src/book/walk.rs`: the `converts` entries are
pushed first, then the tree files. -/
def list_src_files (book : BookStructure) : List SPath :=
  let src_dir := book.src_dir_path
  (book.book_ron.converts.map (fun p => src_dir.join p)) ++ list_files_rec book.index

/-- Body of one spawned task in `walk_book_async`: run `convert_file`, then
increment the shared progress counter once. The second component is the
number of increments the task performs. -/
def walkTask (builder : BookBuilder) (src_file : SPath) : BuildResult × Nat :=
  (builder.convert_file src_file, 1)

/-- `walk_book_async` from `src/book/walk.rs`. Returns the joined task
results (one per spawned task, in spawn order) and the final value of the
shared progress counter (the sum of the per-task increments). -/
def walk_book_async (builder : BookBuilder) (book : BookStructure) :
    List BuildResult × Nat :=
  let src_files := list_src_files book
  let can_skip_all :=
    src_files.foldl (fun acc f => acc || !(builder.can_skip_build f)) false
  if !can_skip_all || src_files.isEmpty then ([], 0)
  else
    let tasks := src_files.map (walkTask builder)
    (tasks.map Prod.fst, (tasks.map Prod.snd).sum)

/-- `walk_book_await_collect` from `src/book/walk.rs`: partition the results,
print the errors, return the outputs. -/
def walk_book_await_collect (builder : BookBuilder) (book : BookStructure) :
    List BuildOutput :=
  (walk_book_async builder book).1.filterMap fun r =>
    match r with
    | .ok o => some o
    | .error _ => none

/-! ## Per-file builder: `src/build/visit.rs` -/

/-- Readable files for `AdocBookBuilder::visit_file` (the cache-artifact
mirror contents). -/
structure VisitFs where
  files : List (SPath × String)

def VisitFs.readFile? (fs : VisitFs) (p : SPath) : Option String :=
  (fs.files.find? (fun e => e.1 == p)).map (fun e => e.2)

/-- `CacheIndex::locate_old_cache_dir`: `<root>/.adbook-cache/a`. The
`validate_dir` directory creation is modelled as succeeding. -/
def CacheIndex.locate_old_cache_dir (book : BookStructure) : SPath :=
  (book.root.join ⟨false, [".adbook-cache"]⟩).join ⟨false, ["a"]⟩

/-- `AdocBookBuilder` state from `src/build/visit.rs`; the scratch buffer and
the asciidoctor/handlebars contexts are abstracted (the contexts feed the
conversion oracle passed to `visit_file`). -/
structure AdocBookBuilder where
  book : BookStructure
  cache_diff : CacheDiff
  src_dir : SPath
  dst_dir : SPath

/-- `AdocBookBuilder::src_file_to_dst_file`: the extension filter followed by
re-rooting under the destination directory with the `.html` extension. -/
def AdocBookBuilder.src_file_to_dst_file (b : AdocBookBuilder) (src_file : SPath) :
    Except String SPath :=
  match src_file.extension with
  | some "adoc" =>
      match src_file.stripPre b.src_dir with
      | none => .error ("File not in source directly: " ++ src_file.display)
      | some rel => .ok ((b.dst_dir.join rel).withExtension "html")
  | some "md" => .error (".md file is not yet supported: " ++ src_file.display)
  | some "org" => .error (".org file is not yet supported: " ++ src_file.display)
  | some "txt" => .error (".txt file is not yet supported: " ++ src_file.display)
  | some "html" => .error (".html file is not yet supported: " ++ src_file.display)
  | _ => .error ("Unexpected kind of file: " ++ src_file.display)

/-- `AdocBookBuilder::can_skip_build`: negation of the staleness predicate;
the `Option` layer carries the panics of `need_build`. -/
def AdocBookBuilder.can_skip_build (b : AdocBookBuilder) (src_file : SPath) :
    Option Bool :=
  (b.cache_diff.need_build b.book src_file).map (fun x => !x)

/-- `AdocBookBuilder::visit_file`. The result's boolean records whether the
converter was invoked; the `Except` carries either the per-file error or the
content written to the destination file (parent-directory creation and the
final `fs::write` are modelled as succeeding). `none` is a `need_build`
panic. -/
def AdocBookBuilder.visit_file (b : AdocBookBuilder) (fs : VisitFs)
    (convert : SPath → Except String String) (src_file : SPath) :
    Option (Bool × Except String String) := do
  match b.src_file_to_dst_file src_file with
  | .error e => some (false, .error e)
  | .ok _dst_file =>
    let skip ← b.can_skip_build src_file
    if skip then
      -- just copy from the cache-artifact mirror
      match src_file.stripPre b.book.src_dir_path with
      | none => some (false, .error "strip_prefix error")
      | some rel_path =>
        let cache_dir := CacheIndex.locate_old_cache_dir b.book
        let cached_file := (cache_dir.join rel_path).withExtension "html"
        match fs.readFile? cached_file with
        | none =>
            some (false, .error ("Unable to locate cached file at " ++ cached_file.display))
        | some content => some (false, .ok content)
    else
      -- convert
      match convert src_file with
      | .error e => some (true, .error e)
      | .ok out => some (true, .ok out)

/-! ## Build driver: `src/build.rs` with `CacheIndex::load` and
`CacheIndex::clean_up_and_save` from `src/build/cache.rs`

The persistent world is the state owned by the pipeline: the serialized cache
index file, the two cache-artifact mirror directories
(`.adbook-cache/a` and `.adbook-cache/b`), and the site directory. These live
at distinct filesystem locations, so they are distinct fields. Fallible
external I/O (directory creation, copies, subprocess lookup, serialization)
is supplied as `Except` oracles in a `BuildEnv`. -/

/-- State of the persisted cache index file. -/
inductive IndexFileState : Type where
  | missing
  | corrupt (raw : String)
  | valid (data : CacheData)
  deriving DecidableEq

/-- `CacheIndex::load` from `src/build/cache.rs`: a missing index file yields
the default (empty) cache; an index file that cannot be opened or
deserialized yields an error (propagated by the `?` operators on
`File::open` and `ron::de::from_reader`). -/
def CacheIndex.load (st : IndexFileState) : Except String CacheData :=
  match st with
  | .missing => .ok CacheData.empty
  | .corrupt _ => .error "failed to deserialize cache index"
  | .valid d => .ok d

/-- `CacheIndex::create_diff`: an empty stored cache is passed on as an
absent previous snapshot. The `current` snapshot comes from the
`CacheData::create_new_cache` filesystem walk. -/
def CacheIndex.create_diff (stored : CacheData) (current : CacheData) : CacheDiff :=
  if stored.entries.isEmpty then ⟨none, current⟩ else ⟨some stored, current⟩

/-- Persistent state owned by the build pipeline. -/
structure World where
  indexFile : IndexFileState
  mirrorOld : List (SPath × String)
  mirrorNew : List (SPath × String)
  site : List (SPath × String)
  deriving DecidableEq

/-- Oracles for the fallible external effects of `build_book`. -/
structure BuildEnv where
  validateSiteDir : Except String Unit
  snapshotResult : Except String CacheData
  builderInit : Except String Unit
  asciidoctorInPath : Bool
  builder : BookBuilder
  siteSync : Except String (List (SPath × String))
  themeCopy : Except String Unit
  locateCacheDir : Except String Unit
  mirrorWrite : Except String Unit
  locateOldDir : Except String Unit
  locateNewDir : Except String Unit
  removeOldDir : Except String Unit
  renameNewToOld : Except String Unit
  serializeIndex : Except String Unit
  writeIndexFile : Except String Unit

/-- Run a fallible step that does not change the world: on error, abort with
the world as it stands. -/
def stepOk (r : Except String Unit) (w : World) (k : Unit → World × Option String) :
    World × Option String :=
  match r with
  | .error e => (w, some e)
  | .ok u => k u

/-- Contents the cache mirror receives from `write_html_outputs`: one file
per rendered output, keyed by source-relative path with the `.html`
extension. -/
def outputFiles (src_dir : SPath) (outputs : List BuildOutput) :
    List (SPath × String) :=
  outputs.filterMap fun o =>
    match (o.src_file.withExtension "html").stripPre src_dir with
    | some rel => some (rel, o.string)
    | none => none

/-- `CacheIndex::clean_up_and_save` from `src/build/cache.rs`: locate the two
mirror directories, `rm -rf` the old one, rename the new one over it, then
serialize and write the index file. The index file is written only when
every preceding operation succeeded. -/
def CacheIndex.clean_up_and_save (env : BuildEnv) (new_cache : CacheData) (w : World) :
    World × Option String :=
  stepOk env.locateOldDir w fun _ =>
  stepOk env.locateNewDir w fun _ =>
  stepOk env.removeOldDir w fun _ =>
  let w1 := { w with mirrorOld := [] }
  stepOk env.renameNewToOld w1 fun _ =>
  let w2 := { w1 with mirrorOld := w1.mirrorNew, mirrorNew := [] }
  stepOk env.serializeIndex w2 fun _ =>
  stepOk env.writeIndexFile w2 fun _ =>
  ({ w2 with indexFile := .valid new_cache }, none)

/-- `build_book` from `src/build.rs`. Step comments match the source's
numbering. Returns the final world and `some message` when the build aborts
with a hard failure. -/
def build_book (env : BuildEnv) (book : BookStructure) (force_rebuild : Bool)
    (w : World) : World × Option String :=
  -- ensure the site directory exists
  stepOk env.validateSiteDir w fun _ =>
  -- load the cache index, or start from the empty one on a forced rebuild
  match (if force_rebuild then Except.ok CacheData.empty else CacheIndex.load w.indexFile) with
  | .error e => (w, some e)
  | .ok stored =>
  -- capture the current snapshot (`CacheData::create_new_cache`)
  match env.snapshotResult with
  | .error e => (w, some e)
  | .ok current =>
  let diff := CacheIndex.create_diff stored current
  -- 2. build the project
  stepOk env.builderInit w fun _ =>
  if ¬ env.asciidoctorInPath then (w, some "`asciidoctor` is not in PATH")
  else
    let outputs := walk_book_await_collect env.builder book
    -- 3. copy the outputs to the site directory
    match env.siteSync with
    | .error e => (w, some e)
    | .ok newSite =>
    let w1 := { w with site := newSite }
    -- 4. the `copies` attribute only collects warnings and errors, never aborts
    -- 5. apply `use_default_theme`
    match (if book.book_ron.use_default_theme then env.themeCopy else Except.ok ()) with
    | .error e => (w1, some e)
    | .ok _ =>
    -- 6. copy outputs to the cache directory, then clean up and save the cache
    stepOk env.locateCacheDir w1 fun _ =>
    stepOk env.mirrorWrite w1 fun _ =>
    let w2 := { w1 with mirrorNew := outputFiles book.src_dir_path outputs }
    CacheIndex.clean_up_and_save env diff.into_new_cache_data w2

/-! ## Concrete sample values used by witnesses and counterexamples -/

/-- Sample document tree: a single directory with just a summary file. -/
def cIndex : Index :=
  .mk ⟨true, ["r", "src"]⟩ "book" ⟨true, ["r", "src", "sum.adoc"]⟩ []

/-- Sample book configuration. -/
def cBookRon : BookRon :=
  { src_dir := ⟨false, ["src"]⟩
    site_dir := ⟨false, ["site"]⟩
    converts := []
    includes := []
    copies := []
    use_default_theme := false }

/-- Sample book structure rooted at `/r`. -/
def cBook : BookStructure :=
  { root := ⟨true, ["r"]⟩, book_ron := cBookRon, index := cIndex }

/-- Sample relative source path. -/
def cP : SPath := ⟨false, ["a.adoc"]⟩

/-- Sample current cache entry for `cP`. -/
def cCur : CacheEntry := { last_modified := 5, path := cP }

/-- Sample first-build diff: no previous snapshot. -/
def cDiffFirst : CacheDiff := { old := none, new := ⟨[cCur]⟩ }

/-! ## C1, C10: the staleness predicate -/

/-- Normal form of `need_build` once the query path has resolved to a
relative path. -/
theorem need_build_eq (diff : CacheDiff) (book : BookStructure) (p rel : SPath)
    (hres : resolveRel book p = some rel) :
    diff.need_build book p =
      (diff.new.find_cache rel).bind fun current_entry =>
        match diff.old with
        | none => some true
        | some last =>
            match last.find_cache rel with
            | none => some true
            | some last_entry =>
                some (decide (last_entry.last_modified ≠ current_entry.last_modified)) := by
  cases hp : p.absolute with
  | false =>
      have hrel : p = rel := by
        have := hres
        simp [resolveRel, hp] at this
        exact this
      subst hrel
      simp only [CacheDiff.need_build]
      rw [hp]
      rfl
  | true =>
      have hstrip : p.stripPre book.src_dir_path = some rel := by
        have := hres
        simp [resolveRel, hp] at this
        exact this
      simp only [CacheDiff.need_build]
      rw [hp]
      simp only [if_true]
      rw [hstrip]
      rfl

/-- C1: for a tracked source file (its resolved relative path has an entry in
the current snapshot), `need_build` returns `true` exactly when there is no
previous snapshot, or the path is absent from the previous snapshot, or the
recorded modification times differ in any direction; it returns `false` only
when the previous snapshot holds an entry with the same relative path and an
identical modification time. Consequently it is `true` for every file on a
first build, and `false` for every file when the previous snapshot records
the same entry unchanged. -/
theorem need_build_characterization
    (diff : CacheDiff) (book : BookStructure) (p rel : SPath) (cur : CacheEntry)
    (hres : resolveRel book p = some rel)
    (hcur : diff.new.find_cache rel = some cur) :
    (diff.need_build book p = some true ↔
       diff.old = none ∨
         ∃ d, diff.old = some d ∧
           (d.find_cache rel = none ∨
             ∃ e, d.find_cache rel = some e ∧ e.last_modified ≠ cur.last_modified)) ∧
    (diff.need_build book p = some false ↔
       ∃ d e, diff.old = some d ∧ d.find_cache rel = some e ∧
         e.last_modified = cur.last_modified) ∧
    (diff.old = none → diff.need_build book p = some true) ∧
    (∀ d, diff.old = some d → d.find_cache rel = some cur →
       diff.need_build book p = some false) := by
  rw [need_build_eq diff book p rel hres, hcur]
  rcases hold : diff.old with _ | d
  · simp
  · rcases hfind : d.find_cache rel with _ | e
    · simp [hfind]
    · simp [hfind]
      intro h
      subst h
      rfl

/-- Witness for C1 at a concrete first-build input. -/
theorem need_build_characterization_witness :
    resolveRel cBook cP = some cP ∧
    cDiffFirst.new.find_cache cP = some cCur ∧
    cDiffFirst.need_build cBook cP = some true := by
  refine ⟨by decide, by decide, ?_⟩
  exact (need_build_characterization cDiffFirst cBook cP cP cCur
    (by decide) (by decide)).2.2.1 rfl

/-- C10: under the invariant that the queried path resolves (an absolute path
is under the source root) and has an entry in the current snapshot, the
staleness predicate is total: neither panic branch is reachable, and a
boolean is always returned. -/
theorem need_build_total
    (diff : CacheDiff) (book : BookStructure) (p rel : SPath)
    (hres : resolveRel book p = some rel)
    (hcur : (diff.new.find_cache rel).isSome) :
    ∃ b, diff.need_build book p = some b := by
  rw [need_build_eq diff book p rel hres]
  rcases hc : diff.new.find_cache rel with _ | cur
  · rw [hc] at hcur
    simp at hcur
  rcases hold : diff.old with _ | d
  · exact ⟨true, rfl⟩
  rcases hfind : d.find_cache rel with _ | e
  · exact ⟨true, by simp [hfind]⟩
  · exact ⟨decide (e.last_modified ≠ cur.last_modified), by simp [hfind]⟩

/-- Witness for C10 at a concrete input. -/
theorem need_build_total_witness :
    resolveRel cBook cP = some cP ∧
    (cDiffFirst.new.find_cache cP).isSome ∧
    ∃ b, cDiffFirst.need_build cBook cP = some b := by
  refine ⟨by decide, by decide, ?_⟩
  exact need_build_total cDiffFirst cBook cP cP (by decide) (by decide)

/-! ## C3: loading the previous cache snapshot -/

/-- Sample render capability: nothing skippable, every conversion succeeds. -/
def cBuilder : BookBuilder :=
  { can_skip_build := fun _ => false
    convert_file := fun p => .ok { string := "html", src_file := p } }

/-- Sample environment in which every external effect succeeds. -/
def cEnvOk : BuildEnv :=
  { validateSiteDir := .ok ()
    snapshotResult := .ok ⟨[cCur]⟩
    builderInit := .ok ()
    asciidoctorInPath := true
    builder := cBuilder
    siteSync := .ok []
    themeCopy := .ok ()
    locateCacheDir := .ok ()
    mirrorWrite := .ok ()
    locateOldDir := .ok ()
    locateNewDir := .ok ()
    removeOldDir := .ok ()
    renameNewToOld := .ok ()
    serializeIndex := .ok ()
    writeIndexFile := .ok () }

/-- Sample initial world with no persisted cache. -/
def cWorld0 : World :=
  { indexFile := .missing, mirrorOld := [], mirrorNew := [], site := [] }

/-- Sample initial world whose persisted cache index is corrupted. -/
def cWorldCorrupt : World :=
  { indexFile := .corrupt "garbage", mirrorOld := [], mirrorNew := [], site := [] }

/-- C3 counterexample: a cache index file that exists but cannot be
deserialized is not treated as absent — `CacheIndex::load` returns an error,
and `build_book` (without a forced rebuild) propagates it as a fatal build
error even though every other external effect succeeds. -/
theorem cache_load_corrupt_counterexample :
    CacheIndex.load (.corrupt "garbage") ≠ Except.ok CacheData.empty ∧
    CacheIndex.load (.corrupt "garbage") =
      .error "failed to deserialize cache index" ∧
    build_book cEnvOk cBook false cWorldCorrupt =
      (cWorldCorrupt, some "failed to deserialize cache index") := by
  refine ⟨by simp [CacheIndex.load], rfl, rfl⟩

/-- C3 amended: loading returns the absent (default, empty) snapshot when no
cache file exists, but when the cache file exists and cannot be deserialized,
`CacheIndex::load` returns an error and `build_book` aborts with a hard
failure instead of starting fresh. -/
theorem cache_load_missing_and_corrupt
    (raw : String) (env : BuildEnv) (book : BookStructure) (w : World)
    (hw : w.indexFile = .corrupt raw) :
    CacheIndex.load .missing = .ok CacheData.empty ∧
    CacheIndex.load (.corrupt raw) = .error "failed to deserialize cache index" ∧
    (build_book env book false w).2 ≠ none := by
  refine ⟨rfl, rfl, ?_⟩
  unfold build_book
  cases hv : env.validateSiteDir with
  | error e => simp [stepOk]
  | ok u => simp [stepOk, hw, CacheIndex.load]

/-- Witness for C3 (amended) at a concrete corrupted-cache input. -/
theorem cache_load_missing_and_corrupt_witness :
    cWorldCorrupt.indexFile = .corrupt "garbage" ∧
    (build_book cEnvOk cBook false cWorldCorrupt).2 ≠ none := by
  refine ⟨by decide, ?_⟩
  exact (cache_load_missing_and_corrupt "garbage" cEnvOk cBook cWorldCorrupt
    (by decide)).2.2

/-! ## C5: the snapshot is persisted only after all assembly steps -/

/-- `clean_up_and_save` leaves the persisted snapshot unchanged when it
aborts, and sets it to the new cache exactly when it succeeds. -/
theorem clean_up_and_save_indexFile (env : BuildEnv) (nc : CacheData) (w : World) :
    ((CacheIndex.clean_up_and_save env nc w).2.isSome →
       (CacheIndex.clean_up_and_save env nc w).1.indexFile = w.indexFile) ∧
    ((CacheIndex.clean_up_and_save env nc w).2 = none →
       (CacheIndex.clean_up_and_save env nc w).1.indexFile = .valid nc) := by
  unfold CacheIndex.clean_up_and_save
  cases env.locateOldDir with
  | error e => simp [stepOk]
  | ok _ =>
  cases env.locateNewDir with
  | error e => simp [stepOk]
  | ok _ =>
  cases env.removeOldDir with
  | error e => simp [stepOk]
  | ok _ =>
  cases env.renameNewToOld with
  | error e => simp [stepOk]
  | ok _ =>
  cases env.serializeIndex with
  | error e => simp [stepOk]
  | ok _ =>
  cases env.writeIndexFile with
  | error e => simp [stepOk]
  | ok _ => simp [stepOk]

/-- C5: `build_book` persists the updated cache snapshot only after every
assembly step has completed: whenever the build aborts with a hard failure,
the previously persisted snapshot is unchanged; and whenever the persisted
snapshot changed at all, the build completed without error and the snapshot
is now exactly the freshly captured one. -/
theorem build_book_cache_persist
    (env : BuildEnv) (book : BookStructure) (force : Bool) (w : World) :
    ((build_book env book force w).2.isSome →
       (build_book env book force w).1.indexFile = w.indexFile) ∧
    ((build_book env book force w).1.indexFile ≠ w.indexFile →
       (build_book env book force w).2 = none ∧
       ∃ current, env.snapshotResult = .ok current ∧
         (build_book env book force w).1.indexFile = .valid current) := by
  unfold build_book
  cases hv : env.validateSiteDir with
  | error e => simp [stepOk]
  | ok _ =>
  cases hload : (if force then Except.ok CacheData.empty else CacheIndex.load w.indexFile) with
  | error e => simp [stepOk]
  | ok stored =>
  cases hsnap : env.snapshotResult with
  | error e => simp [stepOk]
  | ok current =>
  cases hbi : env.builderInit with
  | error e => simp [stepOk]
  | ok _ =>
  cases hasc : env.asciidoctorInPath with
  | false => simp [stepOk, hasc]
  | true =>
  cases hsite : env.siteSync with
  | error e => simp [stepOk, hasc, hsite]
  | ok newSite =>
  cases htheme : (if book.book_ron.use_default_theme then env.themeCopy else Except.ok ()) with
  | error e => simp [stepOk, hasc, hsite, htheme]
  | ok _ =>
  cases hloc : env.locateCacheDir with
  | error e => simp [stepOk, hasc, hsite, htheme, hloc]
  | ok _ =>
  cases hmw : env.mirrorWrite with
  | error e => simp [stepOk, hasc, hsite, htheme, hloc, hmw]
  | ok _ =>
    have hnew : (CacheIndex.create_diff stored current).into_new_cache_data = current := by
      unfold CacheIndex.create_diff CacheDiff.into_new_cache_data
      split <;> rfl
    simp only [stepOk]
    rw [if_neg (by simp), hnew]
    have h := clean_up_and_save_indexFile env current
      { w with
          site := newSite
          mirrorNew :=
            outputFiles book.src_dir_path (walk_book_await_collect env.builder book) }
    constructor
    · intro hs
      exact h.1 hs
    · intro hne
      rcases hcs : (CacheIndex.clean_up_and_save env current
          { w with
              site := newSite
              mirrorNew :=
                outputFiles book.src_dir_path
                  (walk_book_await_collect env.builder book) }).2 with _ | e
      · exact ⟨rfl, current, rfl, h.2 hcs⟩
      · exact absurd (h.1 (by simp [hcs])) hne

/-- Witness for C5: in the all-success environment the build completes, and
the snapshot advances to the freshly captured one. -/
theorem build_book_cache_persist_witness :
    (build_book cEnvOk cBook false cWorld0).2 = none ∧
    (build_book cEnvOk cBook false cWorld0).1.indexFile =
      .valid ⟨[cCur]⟩ := by
  have h := (build_book_cache_persist cEnvOk cBook false cWorld0).2 (by decide)
  exact ⟨h.1, by decide⟩

/-! ## C2: one outcome and one progress increment per dispatched unit -/

/-- Whether a build result is a failure. -/
def isErrB (r : BuildResult) : Bool :=
  match r with
  | .error _ => true
  | .ok _ => false

/-- Whether a build result is a success. -/
def isOkB (r : BuildResult) : Bool :=
  match r with
  | .ok _ => true
  | .error _ => false

/-- The `can_skip_all |= ..` fold of `walk_book_async` computes `any`. -/
theorem foldl_or_any {α : Type} (p : α → Bool) :
    ∀ (l : List α) (acc : Bool),
      l.foldl (fun a f => a || p f) acc = (acc || l.any p)
  | [], acc => by simp
  | x :: rest, acc => by
      simp [List.foldl_cons, List.any_cons, foldl_or_any p rest, Bool.or_assoc]

/-- Summing one unit per list element gives the length. -/
theorem sum_map_one {α : Type} :
    ∀ l : List α, (l.map (fun _ => (1 : Nat))).sum = l.length := by
  intro l
  induction l with
  | nil => rfl
  | cons x rest ih => simp [ih, Nat.add_comm]

/-- Success and failure counts partition a result list. -/
theorem countP_isOk_add_isErr :
    ∀ l : List BuildResult, l.countP isOkB + l.countP isErrB = l.length := by
  intro l
  induction l with
  | nil => rfl
  | cons r rest ih =>
      cases r with
      | ok o => simp [List.countP_cons, isErrB, isOkB]; omega
      | error e => simp [List.countP_cons, isErrB, isOkB]; omega

/-- Normal form of `walk_book_async` when at least one file needs building:
all listed files are dispatched, `join_all` yields one outcome per file in
spawn order, and the progress counter ends at the number of dispatched
units. -/
theorem walk_book_async_dispatch (builder : BookBuilder) (book : BookStructure)
    (hneed : (list_src_files book).any (fun f => !(builder.can_skip_build f)) = true) :
    walk_book_async builder book =
      ((list_src_files book).map (fun f => builder.convert_file f),
        (list_src_files book).length) := by
  have hne : (list_src_files book).isEmpty = false := by
    cases h : list_src_files book with
    | nil => rw [h] at hneed; simp at hneed
    | cons a l => simp
  simp only [walk_book_async]
  rw [foldl_or_any]
  simp only [hneed, hne, Bool.false_or, Bool.not_true, Bool.false_eq_true,
    if_false, Bool.or_false]
  rw [Prod.mk.injEq]
  constructor
  · rw [List.map_map]
    rfl
  · rw [List.map_map]
    have : (Prod.snd ∘ walkTask builder) = fun _ => (1 : Nat) := rfl
    rw [this, sum_map_one]

/-- C2: every dispatched render unit produces exactly one outcome and
performs exactly one progress-counter increment, success or failure alike; a
failing unit cancels nothing: when the dispatched files contain exactly one
conversion failure, the walker still returns one outcome per dispatched file
(N outcomes: N-1 successes and 1 failure). -/
theorem walk_book_outcome_counts (builder : BookBuilder) (book : BookStructure)
    (hneed : (list_src_files book).any (fun f => !(builder.can_skip_build f)) = true) :
    (walk_book_async builder book).1.length = (list_src_files book).length ∧
    (walk_book_async builder book).2 = (list_src_files book).length ∧
    (∀ f, (walkTask builder f).2 = 1) ∧
    (walk_book_async builder book).1 =
      (list_src_files book).map (fun f => builder.convert_file f) ∧
    ((list_src_files book).countP (fun f => isErrB (builder.convert_file f)) = 1 →
      (walk_book_async builder book).1.countP isErrB = 1 ∧
      (walk_book_async builder book).1.countP isOkB =
        (list_src_files book).length - 1) := by
  rw [walk_book_async_dispatch builder book hneed]
  dsimp only
  refine ⟨by simp, rfl, fun f => rfl, rfl, ?_⟩
  intro hone
  have herr : ((list_src_files book).map (fun f => builder.convert_file f)).countP isErrB
      = 1 := by
    rw [List.countP_map]
    exact hone
  refine ⟨herr, ?_⟩
  have hpart := countP_isOk_add_isErr
    ((list_src_files book).map (fun f => builder.convert_file f))
  rw [herr] at hpart
  simp only [List.length_map] at hpart
  omega

/-- Three-file sample tree for the concurrency scenario. -/
def cIndex3 : Index :=
  .mk ⟨true, ["r", "src"]⟩ "book" ⟨true, ["r", "src", "sum.adoc"]⟩
    [.File "x" ⟨true, ["r", "src", "x.adoc"]⟩,
     .File "y" ⟨true, ["r", "src", "y.adoc"]⟩]

/-- Sample book with three source files. -/
def cBook3 : BookStructure :=
  { root := ⟨true, ["r"]⟩, book_ron := cBookRon, index := cIndex3 }

/-- Sample builder that fails on exactly one of the three files. -/
def cBuilderFail : BookBuilder :=
  { can_skip_build := fun _ => false
    convert_file := fun p =>
      if p = ⟨true, ["r", "src", "x.adoc"]⟩ then
        .error { err := "conversion failed", src_file := p }
      else .ok { string := "html", src_file := p } }

/-- Witness for C2: three files dispatched, one fails; three outcomes, two
successes, one failure, and the counter reaches three. -/
theorem walk_book_outcome_counts_witness :
    (list_src_files cBook3).any (fun f => !(cBuilderFail.can_skip_build f)) = true ∧
    (walk_book_async cBuilderFail cBook3).1.length = 3 ∧
    (walk_book_async cBuilderFail cBook3).2 = 3 ∧
    (walk_book_async cBuilderFail cBook3).1.countP isErrB = 1 ∧
    (walk_book_async cBuilderFail cBook3).1.countP isOkB = 2 := by
  have h := walk_book_outcome_counts cBuilderFail cBook3 (by decide)
  refine ⟨by decide, h.1.trans (by decide), h.2.1.trans (by decide), ?_, ?_⟩
  · exact (h.2.2.2.2 (by decide)).1
  · exact ((h.2.2.2.2 (by decide)).2).trans (by decide)

/-! ## C4: flattening order -/

mutual
/-- Spec-side definition, following the spec's words: flatten the tree depth
first, each directory's summary document preceding its children. -/
def dfsFlattenSpec : Index → List SPath
  | .mk _ _ summary items => summary :: dfsFlattenItemsSpec items

/-- Spec-side definition, following the spec's words: children in
declaration order, a sub-directory fully traversed before the next
sibling. -/
def dfsFlattenItemsSpec : List IndexItem → List SPath
  | [] => []
  | .File _ path :: rest => path :: dfsFlattenItemsSpec rest
  | .Dir sub :: rest => dfsFlattenSpec sub ++ dfsFlattenItemsSpec rest
end

mutual
/-- The source's flattening refines the spec-side depth-first order. -/
theorem list_files_rec_eq_spec : (ix : Index) → list_files_rec ix = dfsFlattenSpec ix
  | .mk d n s items => by
      simp only [list_files_rec, dfsFlattenSpec]
      rw [list_files_items_eq_spec items]

/-- Item-list version of `list_files_rec_eq_spec`. -/
theorem list_files_items_eq_spec :
    (items : List IndexItem) → list_files_items items = dfsFlattenItemsSpec items
  | [] => rfl
  | .File n p :: rest => by
      simp only [list_files_items, dfsFlattenItemsSpec]
      rw [list_files_items_eq_spec rest]
  | .Dir sub :: rest => by
      simp only [list_files_items, dfsFlattenItemsSpec]
      rw [list_files_rec_eq_spec sub, list_files_items_eq_spec rest]
end

/-- Sample book with one globally declared convert-only file. -/
def cBookConv : BookStructure :=
  { root := ⟨true, ["r"]⟩
    book_ron := { cBookRon with converts := [⟨false, ["all.adoc"]⟩] }
    index := cIndex }

/-- C4 counterexample: with one convert-only file and a one-file tree, the
flattened list places the convert-only file first, not after the tree
traversal as claimed. -/
theorem list_src_files_order_counterexample :
    list_src_files cBookConv =
      [⟨true, ["r", "src", "all.adoc"]⟩, ⟨true, ["r", "src", "sum.adoc"]⟩] ∧
    list_src_files cBookConv ≠
      dfsFlattenSpec cBookConv.index ++
        (cBookConv.book_ron.converts.map (fun p => cBookConv.src_dir_path.join p)) := by
  exact ⟨by decide, by decide⟩

/-- C4 amended: flattening produces the depth-first order in which each
directory's summary document precedes that directory's children, children
appear in declaration order, and a sub-directory is fully traversed before
the next sibling; the globally declared convert-only files are prepended
before (not appended after) the files obtained from the tree traversal. -/
theorem list_src_files_dfs (book : BookStructure) :
    list_src_files book =
      (book.book_ron.converts.map (fun p => book.src_dir_path.join p)) ++
        dfsFlattenSpec book.index := by
  unfold list_src_files
  rw [list_files_rec_eq_spec]

/-! ## C6: a reusable file with a missing cache artifact -/

/-- Whether `needle` occurs as a contiguous substring of the character
list. -/
def subOccurs (needle : List Char) : List Char → Bool
  | [] => needle.isEmpty
  | c :: rest => needle.isPrefixOf (c :: rest) || subOccurs needle rest

/-- Whether an error message mentions clearing at all (the weakest reading
of "recommends a full cache clear"). -/
def mentionsClear (msg : String) : Bool :=
  subOccurs "clear".data msg.data || subOccurs "Clear".data msg.data

/-- Diff in which the sample file is unchanged, hence reusable. -/
def cDiffSame : CacheDiff := { old := some ⟨[cCur]⟩, new := ⟨[cCur]⟩ }

/-- Builder whose cache diff classifies the sample file as reusable. -/
def cVisitBuilder : AdocBookBuilder :=
  { book := cBook
    cache_diff := cDiffSame
    src_dir := cBook.src_dir_path
    dst_dir := cBook.site_dir_path }

/-- Empty cache-artifact mirror. -/
def cVisitFsEmpty : VisitFs := ⟨[]⟩

/-- Conversion oracle that always succeeds. -/
def cConvert : SPath → Except String String := fun _ => .ok "fresh html"

/-- Sample absolute source file under the source root. -/
def cSrcA : SPath := ⟨true, ["r", "src", "a.adoc"]⟩

/-- C6 counterexample: when the index classifies the file as reusable and the
artifact mirror lacks its file, the per-file error produced is
"Unable to locate cached file at ..." — a hard error with no fallback to
re-rendering, but one that does not recommend (or even mention) a cache
clear. -/
theorem visit_missing_artifact_counterexample :
    cVisitBuilder.can_skip_build cSrcA = some true ∧
    cVisitBuilder.visit_file cVisitFsEmpty cConvert cSrcA =
      some (false,
        .error "Unable to locate cached file at /r/.adbook-cache/a/a.html") ∧
    mentionsClear "Unable to locate cached file at /r/.adbook-cache/a/a.html" = false := by
  exact ⟨by decide, by rfl, by decide⟩

/-- C6 amended: for any file the cache index classifies as reusable whose
expected artifact is missing from the cache-artifact mirror, `visit_file`
produces a hard per-file error naming the missing cached file, and it never
falls back to invoking the converter (the invocation flag is `false`). -/
theorem visit_missing_artifact_hard_error
    (b : AdocBookBuilder) (fs : VisitFs) (convert : SPath → Except String String)
    (src_file dst rel : SPath)
    (hdst : b.src_file_to_dst_file src_file = .ok dst)
    (hskip : b.can_skip_build src_file = some true)
    (hrel : src_file.stripPre b.book.src_dir_path = some rel)
    (hmiss : fs.readFile?
      (((CacheIndex.locate_old_cache_dir b.book).join rel).withExtension "html") = none) :
    b.visit_file fs convert src_file =
      some (false, .error ("Unable to locate cached file at " ++
        (((CacheIndex.locate_old_cache_dir b.book).join rel).withExtension "html").display)) := by
  unfold AdocBookBuilder.visit_file
  rw [hdst]
  rw [hskip]
  simp only [hrel, hmiss]
  rfl

/-- Witness for C6 (amended) at the concrete reusable-but-missing input. -/
theorem visit_missing_artifact_hard_error_witness :
    cVisitBuilder.can_skip_build cSrcA = some true ∧
    cVisitFsEmpty.readFile?
      (((CacheIndex.locate_old_cache_dir cVisitBuilder.book).join cP).withExtension "html") =
        none ∧
    cVisitBuilder.visit_file cVisitFsEmpty cConvert cSrcA =
      some (false, .error ("Unable to locate cached file at " ++
        (((CacheIndex.locate_old_cache_dir cVisitBuilder.book).join cP).withExtension
          "html").display)) := by
  refine ⟨by decide, by rfl, ?_⟩
  exact visit_missing_artifact_hard_error cVisitBuilder cVisitFsEmpty cConvert cSrcA
    (((cVisitBuilder.dst_dir.join cP).withExtension "html")) cP
    (by rfl) (by decide) (by decide) (by rfl)

/-! ## C7, C8, C9: the document tree loader -/

/-- `processItems` distributes over list concatenation: the entry loop
processes a concatenation segment by segment, concatenating item and error
contributions. -/
theorem processItems_append (fs : IndexFs)
    (recur : IndexRon → SPath → Option (Except IndexLoadError (Index × List IndexLoadError)))
    (dir : SPath) :
    ∀ l1 l2, processItems fs recur dir (l1 ++ l2) =
      (processItems fs recur dir l1).bind fun p1 =>
      (processItems fs recur dir l2).bind fun p2 =>
      some (p1.1 ++ p2.1, p1.2 ++ p2.2)
  | [], l2 => by
      rcases h2 : processItems fs recur dir l2 with _ | ⟨i2, e2⟩ <;>
        simp [processItems, h2]
  | it :: rest, l2 => by
      have ih := processItems_append fs recur dir rest l2
      rcases h1 : processItem fs recur dir it with _ | ⟨i1, e1⟩
      · simp [processItems, h1]
      · rcases h2 : processItems fs recur dir rest with _ | ⟨j, f⟩
        · simp [processItems, h1, ih, h2]
        · rcases h3 : processItems fs recur dir l2 with _ | ⟨k, g⟩
          · simp [processItems, h1, ih, h2, h3]
          · simp [processItems, h1, ih, h2, h3, List.append_assoc]

/-- An entry whose target path does not exist contributes exactly one
`FailedToLocateItem` error carrying the declared relative path, for both
entry kinds. -/
theorem processItem_missing (fs : IndexFs)
    (recur : IndexRon → SPath → Option (Except IndexLoadError (Index × List IndexLoadError)))
    (dir rel : SPath) (h : fs.pathExists (dir.join rel) = false) :
    (∀ name, processItem fs recur dir (.File name rel) =
       some ([], [.FailedToLocateItem rel dir])) ∧
    processItem fs recur dir (.Dir rel) =
      some ([], [.FailedToLocateItem rel dir]) := by
  constructor
  · intro name
    simp [processItem, h]
  · simp [processItem, h]

/-- Description directory for the loader samples. -/
def cDirR : SPath := ⟨true, ["r"]⟩

/-- Filesystem for the A, B, C scenario: the summary and the files A and C
exist, B does not. -/
def cFsABC : IndexFs :=
  { nodes := [(⟨true, ["r", "sum.adoc"]⟩, .file),
              (⟨true, ["r", "A.adoc"]⟩, .file),
              (⟨true, ["r", "C.adoc"]⟩, .file)]
    ronFiles := [] }

/-- Description declaring files A, B, C. -/
def cRonABC : IndexRon :=
  { summary := ("book", ⟨false, ["sum.adoc"]⟩)
    items := [.File "A" ⟨false, ["A.adoc"]⟩,
              .File "B" ⟨false, ["B.adoc"]⟩,
              .File "C" ⟨false, ["C.adoc"]⟩] }

/-- C7 amended: every declared child entry whose target path does not exist
contributes exactly one load error naming the entry's declared relative path
and is skipped, while the sibling entries before and after it are still
processed; in particular a description declaring files A, B, C where B's
path does not exist loads to a tree containing only A and C plus one error
for B's declared path. -/
theorem missing_target_entry_skipped (fs : IndexFs)
    (recur : IndexRon → SPath → Option (Except IndexLoadError (Index × List IndexLoadError)))
    (dir : SPath) :
    (∀ pre post name rel,
       fs.pathExists (dir.join rel) = false →
       processItems fs recur dir (pre ++ .File name rel :: post) =
         (processItems fs recur dir pre).bind fun p1 =>
         (processItems fs recur dir post).bind fun p2 =>
         some (p1.1 ++ p2.1, p1.2 ++ .FailedToLocateItem rel dir :: p2.2)) ∧
    (∀ pre post rel,
       fs.pathExists (dir.join rel) = false →
       processItems fs recur dir (pre ++ .Dir rel :: post) =
         (processItems fs recur dir pre).bind fun p1 =>
         (processItems fs recur dir post).bind fun p2 =>
         some (p1.1 ++ p2.1, p1.2 ++ .FailedToLocateItem rel dir :: p2.2)) ∧
    from_index_ron_recursive cFsABC 1 cRonABC cDirR =
      some (.ok (.mk cDirR "book" ⟨true, ["r", "sum.adoc"]⟩
        [.File "A" ⟨true, ["r", "A.adoc"]⟩, .File "C" ⟨true, ["r", "C.adoc"]⟩],
        [.FailedToLocateItem ⟨false, ["B.adoc"]⟩ cDirR])) := by
  refine ⟨?_, ?_, by rfl⟩
  · intro pre post name rel h
    rw [processItems_append]
    rcases hpre : processItems fs recur dir pre with _ | ⟨i1, e1⟩
    · simp
    · rcases hpost : processItems fs recur dir post with _ | ⟨i2, e2⟩
      · simp [processItems, (processItem_missing fs recur dir rel h).1 name, hpost]
      · simp [processItems, (processItem_missing fs recur dir rel h).1 name, hpost]
  · intro pre post rel h
    rw [processItems_append]
    rcases hpre : processItems fs recur dir pre with _ | ⟨i1, e1⟩
    · simp
    · rcases hpost : processItems fs recur dir post with _ | ⟨i2, e2⟩
      · simp [processItems, (processItem_missing fs recur dir rel h).2, hpost]
      · simp [processItems, (processItem_missing fs recur dir rel h).2, hpost]

/-- Witness for C7 (amended): the missing middle entry B contributes exactly
one error between the processed siblings A and C. -/
theorem missing_target_entry_skipped_witness :
    cFsABC.pathExists (cDirR.join ⟨false, ["B.adoc"]⟩) = false ∧
    processItems cFsABC (from_index_ron_recursive cFsABC 0) cDirR
        ([.File "A" ⟨false, ["A.adoc"]⟩] ++
          .File "B" ⟨false, ["B.adoc"]⟩ :: [.File "C" ⟨false, ["C.adoc"]⟩]) =
      (processItems cFsABC (from_index_ron_recursive cFsABC 0) cDirR
          [.File "A" ⟨false, ["A.adoc"]⟩]).bind fun p1 =>
      (processItems cFsABC (from_index_ron_recursive cFsABC 0) cDirR
          [.File "C" ⟨false, ["C.adoc"]⟩]).bind fun p2 =>
      some (p1.1 ++ p2.1,
        p1.2 ++ .FailedToLocateItem ⟨false, ["B.adoc"]⟩ cDirR :: p2.2) := by
  refine ⟨by decide, ?_⟩
  exact (missing_target_entry_skipped cFsABC (from_index_ron_recursive cFsABC 0)
    cDirR).1 [.File "A" ⟨false, ["A.adoc"]⟩] [.File "C" ⟨false, ["C.adoc"]⟩]
    "B" ⟨false, ["B.adoc"]⟩ (by decide)

/-- C7 counterexample: a `File` entry whose target exists but is a directory
without its own `index.ron` (so the target is neither a regular file nor a
directory with a description file) is accepted as a `File` node with no
recorded error, instead of being skipped with one error as claimed. -/
def cFsDirB : IndexFs :=
  { nodes := [(⟨true, ["r", "sum.adoc"]⟩, .file), (⟨true, ["r", "sub"]⟩, .dir)]
    ronFiles := [] }

/-- Description declaring a `File` entry whose target is the directory
`sub`. -/
def cRonDirB : IndexRon :=
  { summary := ("book", ⟨false, ["sum.adoc"]⟩)
    items := [.File "B" ⟨false, ["sub"]⟩] }

/-- C7 counterexample theorem: the target of entry B exists, is not a
regular file, and has no description file, yet the load returns a tree that
contains B as a `File` node and an empty error list. -/
theorem missing_target_entry_counterexample :
    cFsDirB.pathExists (cDirR.join ⟨false, ["sub"]⟩) = true ∧
    cFsDirB.isFile (cDirR.join ⟨false, ["sub"]⟩) = false ∧
    cFsDirB.isFile ((cDirR.join ⟨false, ["sub"]⟩).join indexRonName) = false ∧
    from_index_ron_recursive cFsDirB 1 cRonDirB cDirR =
      some (.ok (.mk cDirR "book" ⟨true, ["r", "sum.adoc"]⟩
        [.File "B" ⟨true, ["r", "sub"]⟩], [])) := by
  exact ⟨by decide, by decide, by decide, by rfl⟩

/-- Sub-description missing its mandatory summary document. -/
def cSubRonNoSum : IndexRon :=
  { summary := ("s", ⟨false, ["s1.adoc"]⟩), items := [] }

/-- Filesystem in which the sub-directory's description exists but its
summary document does not. -/
def cFsSubNoSum : IndexFs :=
  { nodes := [(⟨true, ["r", "sum.adoc"]⟩, .file),
              (⟨true, ["r", "sub"]⟩, .dir),
              (⟨true, ["r", "sub", "index.ron"]⟩, .file)]
    ronFiles := [(⟨true, ["r", "sub", "index.ron"]⟩, .ok cSubRonNoSum)] }

/-- Root description declaring the sub-directory. -/
def cRonSub : IndexRon :=
  { summary := ("book", ⟨false, ["sum.adoc"]⟩)
    items := [.Dir ⟨false, ["sub"]⟩] }

/-- C8: a missing mandatory summary document is the only condition that
makes `from_index_ron_recursive` return a hard error, and it aborts only
that sub-tree: the parent catches the error from a sub-directory's load,
records it in its own error list, and continues with its remaining
entries. -/
theorem summary_abort_characterization (fs : IndexFs) (n : Nat) (ron : IndexRon)
    (dir : SPath) :
    (∀ e, from_index_ron_recursive fs (n + 1) ron dir = some (.error e) →
       fs.isFile (dir.join ron.summary.2) = false ∧
       e = .FailedToLocateSummary ron.summary.2 dir) ∧
    (fs.isFile (dir.join ron.summary.2) = false →
       from_index_ron_recursive fs (n + 1) ron dir =
         some (.error (.FailedToLocateSummary ron.summary.2 dir))) ∧
    (∀ pre post rel subRon err,
       fs.pathExists (dir.join rel) = true →
       fs.isFile ((dir.join rel).join indexRonName) = true →
       fs.ronAt ((dir.join rel).join indexRonName) = .ok subRon →
       from_index_ron_recursive fs n subRon (dir.join rel) = some (.error err) →
       processItems fs (from_index_ron_recursive fs n) dir (pre ++ .Dir rel :: post) =
         (processItems fs (from_index_ron_recursive fs n) dir pre).bind fun p1 =>
         (processItems fs (from_index_ron_recursive fs n) dir post).bind fun p2 =>
         some (p1.1 ++ p2.1, p1.2 ++ err :: p2.2)) := by
  refine ⟨?_, ?_, ?_⟩
  · intro e he
    by_cases hs : fs.isFile (dir.join ron.summary.2) = false
    · simp [from_index_ron_recursive, hs] at he
      exact ⟨hs, he.symm⟩
    · rw [Bool.not_eq_false] at hs
      rcases hp : processItems fs (from_index_ron_recursive fs n) dir ron.items
        with _ | ⟨items, errs⟩ <;>
        simp [from_index_ron_recursive, hs, hp] at he
  · intro hs
    simp [from_index_ron_recursive, hs]
  · intro pre post rel subRon err h1 h2 h3 h4
    have hone : processItem fs (from_index_ron_recursive fs n) dir (.Dir rel) =
        some ([], [err]) := by
      simp [processItem, h1, h2, h3, h4]
    rw [processItems_append]
    rcases hpre : processItems fs (from_index_ron_recursive fs n) dir pre
      with _ | ⟨i1, e1⟩
    · simp
    · rcases hpost : processItems fs (from_index_ron_recursive fs n) dir post
        with _ | ⟨i2, e2⟩
      · simp [processItems, hone, hpost]
      · simp [processItems, hone, hpost]

/-- Witness for C8 at the concrete missing-sub-summary input: the sub-load
aborts with exactly the summary error, and the parent's load still succeeds,
recording that error. -/
theorem summary_abort_characterization_witness :
    cFsSubNoSum.isFile ((⟨true, ["r", "sub"]⟩ : SPath).join ⟨false, ["s1.adoc"]⟩) = false ∧
    from_index_ron_recursive cFsSubNoSum 1 cSubRonNoSum ⟨true, ["r", "sub"]⟩ =
      some (.error (.FailedToLocateSummary ⟨false, ["s1.adoc"]⟩ ⟨true, ["r", "sub"]⟩)) ∧
    from_index_ron_recursive cFsSubNoSum 2 cRonSub cDirR =
      some (.ok (.mk cDirR "book" ⟨true, ["r", "sum.adoc"]⟩ [],
        [.FailedToLocateSummary ⟨false, ["s1.adoc"]⟩ ⟨true, ["r", "sub"]⟩])) := by
  refine ⟨by decide, ?_, by rfl⟩
  exact (summary_abort_characterization cFsSubNoSum 0 cSubRonNoSum
    ⟨true, ["r", "sub"]⟩).2.1 (by decide)

/-- The single error produced inside the sample sub-tree. -/
def cSubErr : IndexLoadError :=
  .FailedToLocateItem ⟨false, ["missing.adoc"]⟩ ⟨true, ["r", "sub"]⟩

/-- Sub-description with one missing file entry. -/
def cSubRonNested : IndexRon :=
  { summary := ("sub", ⟨false, ["s1.adoc"]⟩)
    items := [.File "M" ⟨false, ["missing.adoc"]⟩] }

/-- Filesystem for the nested-error sample. -/
def cFsNested : IndexFs :=
  { nodes := [(⟨true, ["r", "sum.adoc"]⟩, .file),
              (⟨true, ["r", "sub"]⟩, .dir),
              (⟨true, ["r", "sub", "index.ron"]⟩, .file),
              (⟨true, ["r", "sub", "s1.adoc"]⟩, .file)]
    ronFiles := [(⟨true, ["r", "sub", "index.ron"]⟩, .ok cSubRonNested)] }

/-- Root description for the nested-error sample. -/
def cRonNested : IndexRon :=
  { summary := ("book", ⟨false, ["sum.adoc"]⟩)
    items := [.Dir ⟨false, ["sub"]⟩] }

/-- C9 counterexample: the sub-tree's single load error reaches the parent
wrapped in one `FoundErrorsInSubIndex` entry holding the sub-tree's error
list, which is not the flattened list of the sub-tree's errors. -/
theorem subtree_errors_nested_counterexample :
    from_index_ron_recursive cFsNested 2 cRonNested cDirR =
      some (.ok (.mk cDirR "book" ⟨true, ["r", "sum.adoc"]⟩
        [.Dir (.mk ⟨true, ["r", "sub"]⟩ "sub" ⟨true, ["r", "sub", "s1.adoc"]⟩ [])],
        [.FoundErrorsInSubIndex [cSubErr]])) ∧
    [IndexLoadError.FoundErrorsInSubIndex [cSubErr]] ≠ [cSubErr] := by
  refine ⟨by rfl, ?_⟩
  intro h
  injection h with h1 h2
  simp [cSubErr] at h1

/-- C9 amended: when a sub-tree's load succeeds but produced a nonempty
error list, the parent records those errors as a single
`FoundErrorsInSubIndex` entry containing the sub-tree's error list — nested
inside a wrapper, not flattened — while the sibling entries are still
processed. -/
theorem subtree_errors_wrapped (fs : IndexFs) (n : Nat) (dir : SPath) :
    ∀ pre post rel subRon ix ixErrs,
      fs.pathExists (dir.join rel) = true →
      fs.isFile ((dir.join rel).join indexRonName) = true →
      fs.ronAt ((dir.join rel).join indexRonName) = .ok subRon →
      from_index_ron_recursive fs n subRon (dir.join rel) = some (.ok (ix, ixErrs)) →
      ixErrs ≠ [] →
      processItems fs (from_index_ron_recursive fs n) dir (pre ++ .Dir rel :: post) =
        (processItems fs (from_index_ron_recursive fs n) dir pre).bind fun p1 =>
        (processItems fs (from_index_ron_recursive fs n) dir post).bind fun p2 =>
        some (p1.1 ++ .Dir ix :: p2.1,
          p1.2 ++ .FoundErrorsInSubIndex ixErrs :: p2.2) := by
  intro pre post rel subRon ix ixErrs h1 h2 h3 h4 hne
  have hempty : ixErrs.isEmpty = false := by
    cases ixErrs with
    | nil => exact absurd rfl hne
    | cons a l => rfl
  have hone : processItem fs (from_index_ron_recursive fs n) dir (.Dir rel) =
      some ([.Dir ix], [.FoundErrorsInSubIndex ixErrs]) := by
    simp [processItem, h1, h2, h3, h4, hempty]
  rw [processItems_append]
  rcases hpre : processItems fs (from_index_ron_recursive fs n) dir pre
    with _ | ⟨i1, e1⟩
  · simp
  · rcases hpost : processItems fs (from_index_ron_recursive fs n) dir post
      with _ | ⟨i2, e2⟩
    · simp [processItems, hone, hpost]
    · simp [processItems, hone, hpost]

/-- Witness for C9 (amended) at the concrete nested-error input. -/
theorem subtree_errors_wrapped_witness :
    from_index_ron_recursive cFsNested 1 cSubRonNested (cDirR.join ⟨false, ["sub"]⟩) =
      some (.ok (.mk ⟨true, ["r", "sub"]⟩ "sub" ⟨true, ["r", "sub", "s1.adoc"]⟩ [],
        [cSubErr])) ∧
    processItems cFsNested (from_index_ron_recursive cFsNested 1) cDirR
        ([] ++ .Dir ⟨false, ["sub"]⟩ :: []) =
      (processItems cFsNested (from_index_ron_recursive cFsNested 1) cDirR []).bind
        fun p1 =>
      (processItems cFsNested (from_index_ron_recursive cFsNested 1) cDirR []).bind
        fun p2 =>
      some (p1.1 ++
          .Dir (.mk ⟨true, ["r", "sub"]⟩ "sub" ⟨true, ["r", "sub", "s1.adoc"]⟩ []) ::
            p2.1,
        p1.2 ++ .FoundErrorsInSubIndex [cSubErr] :: p2.2) := by
  refine ⟨by rfl, ?_⟩
  exact subtree_errors_wrapped cFsNested 1 cDirR [] []
    ⟨false, ["sub"]⟩ cSubRonNested
    (.mk ⟨true, ["r", "sub"]⟩ "sub" ⟨true, ["r", "sub", "s1.adoc"]⟩ []) [cSubErr]
    (by decide) (by decide) (by rfl) (by rfl) (by simp [cSubErr])

end Adbook
